import Mathlib

/-!
Verification of the snippe-python-sdk webhook trust boundary and response
classifier, as a shallow embedding of `snippe/webhooks.py`, `snippe/client.py`,
`snippe/models.py` and `snippe/exceptions.py`.

Conventions of the embedding:
* Python byte strings (request bodies, header values, signing keys) are
  `List Nat` with each element a byte value; `strBytes` renders an ASCII
  Lean string literal as its byte list.
* Decoded JSON documents are the inductive `Json`; Python `dict` lookup
  (`d[k]`, `d.get(k)`, `d.get(k, default)`) is `objGet` / `objGetD`, with
  object construction using last-assignment-wins key semantics (`objInsert`)
  exactly as Python `dict` insertion behaves.
* Python exceptions become explicit `Except` error values; the distinct
  exception classes and messages of the source become distinct constructors.
* `time.time()` — the one impure read in `webhooks.py` — becomes an explicit
  `now : Int` argument threaded to the functions that the source lets read it.
-/

/-- A decoded JSON value, the result of Python `json.loads` restricted to the
integer-numeral, ASCII fragment exchanged by this SDK. -/
inductive Json where
  | null : Json
  | bool : Bool → Json
  | num : Int → Json
  | str : String → Json
  | arr : List Json → Json
  | obj : List (String × Json) → Json

/-- Python `dict` lookup `d.get(k)` returning `none` when the key is absent.
Keys are unique in any object built by `objInsert`, so first match suffices. -/
def objGet : List (String × Json) → String → Option Json
  | [], _ => none
  | (k0, v0) :: rest, k => if k0 = k then some v0 else objGet rest k

/-- Python `d.get(k, default)`: the stored value when the key is present
(even when that value is JSON null), the default otherwise. -/
def objGetD (kvs : List (String × Json)) (k : String) (d : Json) : Json :=
  match objGet kvs k with
  | some v => v
  | none => d

/-- Python `dict` assignment `d[k] = v`: replaces the value in place when the
key exists, appends otherwise (insertion order preserved, last value wins). -/
def objInsert (kvs : List (String × Json)) (k : String) (v : Json) :
    List (String × Json) :=
  match kvs with
  | [] => [(k, v)]
  | (k0, v0) :: rest =>
      if k0 = k then (k0, v) :: rest else (k0, v0) :: objInsert rest k v

/-- The UTF-8 bytes of an ASCII string literal, used to write concrete byte
strings readably. On the ASCII range UTF-8 is the identity on code points. -/
def strBytes (s : String) : List Nat :=
  s.data.map Char.toNat

/-- ASCII whitespace recognised by Python `int()` argument stripping. -/
def isSpaceByte (b : Nat) : Bool :=
  b = 32 || b = 9 || b = 10 || b = 11 || b = 12 || b = 13

/-- ASCII decimal digit. -/
def isDigitByte (b : Nat) : Bool :=
  48 ≤ b && b ≤ 57

/-- Value of a nonempty all-digit byte run, `none` otherwise. -/
def digitsToNat : List Nat → Option Nat
  | [] => none
  | l =>
      if l.all isDigitByte then
        some (l.foldl (fun acc b => 10 * acc + (b - 48)) 0)
      else
        none

/-- Python `int(s)` on a byte string: strip surrounding whitespace, optional
sign, then a nonempty decimal digit run; `None`/failure is `none` (the source
catches `ValueError`/`TypeError`). Digit-group underscores are outside the
modelled fragment. -/
def pyInt (s : List Nat) : Option Int :=
  let t := ((s.dropWhile isSpaceByte).reverse.dropWhile isSpaceByte).reverse
  match t with
  | 43 :: rest => (digitsToNat rest).map Int.ofNat
  | 45 :: rest => (digitsToNat rest).map (fun n => -(n : Int))
  | rest => (digitsToNat rest).map Int.ofNat

/-! SHA-256 (FIPS 180-4) over byte lists, with 32-bit words as `Nat` reduced
mod `2 ^ 32`, exactly the primitive `hashlib.sha256` that `webhooks.py` hands
to `hmac.new`. -/

/-- Reduce to a 32-bit word. -/
def w32 (x : Nat) : Nat := x % 4294967296

/-- Rotate a 32-bit word right by `n` (for `0 < n < 32`). -/
def rotr (n x : Nat) : Nat := w32 ((x >>> n) ||| (x <<< (32 - n)))

/-- SHA-256 big sigma 0. -/
def bsig0 (x : Nat) : Nat := (rotr 2 x) ^^^ (rotr 13 x) ^^^ (rotr 22 x)

/-- SHA-256 big sigma 1. -/
def bsig1 (x : Nat) : Nat := (rotr 6 x) ^^^ (rotr 11 x) ^^^ (rotr 25 x)

/-- SHA-256 small sigma 0. -/
def ssig0 (x : Nat) : Nat := (rotr 7 x) ^^^ (rotr 18 x) ^^^ (x >>> 3)

/-- SHA-256 small sigma 1. -/
def ssig1 (x : Nat) : Nat := (rotr 17 x) ^^^ (rotr 19 x) ^^^ (x >>> 10)

/-- SHA-256 choice function (complement as xor with the all-ones word). -/
def chf (x y z : Nat) : Nat := (x &&& y) ^^^ ((x ^^^ 4294967295) &&& z)

/-- SHA-256 majority function. -/
def majf (x y z : Nat) : Nat := (x &&& y) ^^^ (x &&& z) ^^^ (y &&& z)

/-- The 64 SHA-256 round constants. -/
def K256 : List Nat :=
  [1116352408, 1899447441, 3049323471, 3921009573,
   961987163, 1508970993, 2453635748, 2870763221,
   3624381080, 310598401, 607225278, 1426881987,
   1925078388, 2162078206, 2614888103, 3248222580,
   3835390401, 4022224774, 264347078, 604807628,
   770255983, 1249150122, 1555081692, 1996064986,
   2554220882, 2821834349, 2952996808, 3210313671,
   3336571891, 3584528711, 113926993, 338241895,
   666307205, 773529912, 1294757372, 1396182291,
   1695183700, 1986661051, 2177026350, 2456956037,
   2730485921, 2820302411, 3259730800, 3345764771,
   3516065817, 3600352804, 4094571909, 275423344,
   430227734, 506948616, 659060556, 883997877,
   958139571, 1322822218, 1537002063, 1747873779,
   1955562222, 2024104815, 2227730452, 2361852424,
   2428436474, 2756734187, 3204031479, 3329325298]

/-- The SHA-256 initial hash state. -/
def H256 : List Nat :=
  [1779033703, 3144134277, 1013904242, 2773480762,
   1359893119, 2600822924, 528734635, 1541459225]

/-- A `Nat` as four big-endian bytes. -/
def toBE4 (n : Nat) : List Nat :=
  [(n >>> 24) % 256, (n >>> 16) % 256, (n >>> 8) % 256, n % 256]

/-- A `Nat` as eight big-endian bytes (the SHA-256 length field). -/
def toBE8 (n : Nat) : List Nat :=
  [(n >>> 56) % 256, (n >>> 48) % 256, (n >>> 40) % 256, (n >>> 32) % 256,
   (n >>> 24) % 256, (n >>> 16) % 256, (n >>> 8) % 256, n % 256]

/-- A 64-byte block as sixteen big-endian 32-bit words. -/
def blockWords (b : List Nat) : List Nat :=
  (List.range 16).map fun i =>
    16777216 * (b.getD (4 * i) 0 % 256) + 65536 * (b.getD (4 * i + 1) 0 % 256)
      + 256 * (b.getD (4 * i + 2) 0 % 256) + (b.getD (4 * i + 3) 0 % 256)

/-- Extend sixteen message-schedule words to sixty-four. -/
def extendWords (w : List Nat) : List Nat :=
  (List.range 48).foldl
    (fun acc _ =>
      acc ++ [w32 (ssig1 (acc.getD (acc.length - 2) 0)
        + acc.getD (acc.length - 7) 0
        + ssig0 (acc.getD (acc.length - 15) 0)
        + acc.getD (acc.length - 16) 0)])
    w

/-- One SHA-256 compression round over the eight-word working state. -/
def sha256Round (st : List Nat) (kw : Nat × Nat) : List Nat :=
  match st with
  | [a, b, c, d, e, f, g, h] =>
      let t1 := w32 (h + bsig1 e + chf e f g + kw.1 + kw.2)
      let t2 := w32 (bsig0 a + majf a b c)
      [w32 (t1 + t2), a, b, c, w32 (d + t1), e, f, g]
  | other => other

/-- SHA-256 compression of one 64-byte block into the hash state. -/
def sha256Compress (h : List Nat) (block : List Nat) : List Nat :=
  let fin := (K256.zip (extendWords (blockWords block))).foldl sha256Round h
  (h.zip fin).map fun p => w32 (p.1 + p.2)

/-- SHA-256 padding: a 128 byte, zeros to 56 mod 64, then the bit length as
eight big-endian bytes. Input bytes are reduced mod 256. -/
def sha256Pad (msg : List Nat) : List Nat :=
  let m := msg.map (· % 256)
  m ++ 128 :: List.replicate ((119 - m.length % 64) % 64) 0
    ++ toBE8 (8 * m.length)

/-- Split a byte list into its successive 64-byte blocks. -/
def toBlocks (l : List Nat) : List (List Nat) :=
  if h : l = [] then [] else l.take 64 :: toBlocks (l.drop 64)
termination_by l.length
decreasing_by
  have hp : 0 < l.length := List.length_pos.mpr h
  simp [List.length_drop]
  omega

/-- The SHA-256 digest of a byte list, as its 32 digest bytes. -/
def sha256 (msg : List Nat) : List Nat :=
  (((toBlocks (sha256Pad msg)).foldl sha256Compress H256).map toBE4).flatten

/-- HMAC-SHA256 (RFC 2104) with a 64-byte block, the construction performed by
Python `hmac.new(key, message, hashlib.sha256)`. -/
def hmacSha256 (key msg : List Nat) : List Nat :=
  let k := key.map (· % 256)
  let k1 := if 64 < k.length then sha256 k else k
  let k0 := k1 ++ List.replicate (64 - k1.length) 0
  sha256 ((k0.map (fun b => b ^^^ 92)) ++ sha256 ((k0.map (fun b => b ^^^ 54)) ++ msg))

/-- Lowercase hex digit byte for a value below 16. -/
def hexDigit (n : Nat) : Nat :=
  if n < 10 then 48 + n else 87 + n

/-- Lowercase hex rendering of a byte list, as ASCII bytes — Python
`.hexdigest()` on the HMAC object. -/
def toHexBytes (bs : List Nat) : List Nat :=
  bs.foldr (fun b acc => hexDigit (b / 16 % 16) :: hexDigit (b % 16) :: acc) []

/-! JSON parsing: Python `json.loads` on the fragment this SDK exchanges —
objects, arrays, ASCII strings with the single-character escapes, integer
numerals, `true`/`false`/`null`. Floats, `\u` escapes and non-ASCII string
bytes are outside the modelled fragment and are rejected. Recursion is by an
explicit fuel parameter; `jsonParse` supplies fuel ample for its input. -/

/-- JSON whitespace bytes accepted between tokens by `json.loads`. -/
def isJsonWs (b : Nat) : Bool :=
  b = 32 || b = 9 || b = 10 || b = 13

/-- Drop leading JSON whitespace. -/
def skipWs (s : List Nat) : List Nat :=
  s.dropWhile isJsonWs

/-- The character a single-letter JSON string escape denotes, if valid. -/
def escChar (b : Nat) : Option Char :=
  if b = 34 then some '"'
  else if b = 92 then some '\\'
  else if b = 47 then some '/'
  else if b = 98 then some (Char.ofNat 8)
  else if b = 102 then some (Char.ofNat 12)
  else if b = 110 then some '\n'
  else if b = 114 then some (Char.ofNat 13)
  else if b = 116 then some '\t'
  else none

/-- Parse the body of a JSON string after the opening quote, returning the
characters and the input after the closing quote. -/
def parseStrBody (fuel : Nat) (s : List Nat) : Option (List Char × List Nat) :=
  match fuel with
  | 0 => none
  | f + 1 =>
      match s with
      | [] => none
      | 34 :: rest => some ([], rest)
      | 92 :: e :: rest =>
          match escChar e with
          | none => none
          | some c => (parseStrBody f rest).map fun p => (c :: p.1, p.2)
      | b :: rest =>
          if b < 32 || 128 ≤ b then none
          else (parseStrBody f rest).map fun p => (Char.ofNat b :: p.1, p.2)

/-- Parse a JSON integer numeral: optional minus, no leading zeros, and not
followed by a fraction or exponent (floats are outside the fragment). -/
def parseIntNum (s : List Nat) : Option (Int × List Nat) :=
  let core := fun (t : List Nat) (mk : Nat → Int) =>
    let ds := t.takeWhile isDigitByte
    let rest := t.dropWhile isDigitByte
    if ds = [] then none
    else if 1 < ds.length && ds.headD 0 = 48 then none
    else
      match rest with
      | 46 :: _ => none
      | 101 :: _ => none
      | 69 :: _ => none
      | _ => (digitsToNat ds).map fun n => (mk n, rest)
  match s with
  | 45 :: t => core t (fun n => -(n : Int))
  | t => core t (fun n => (n : Int))

mutual

/-- Parse one JSON value, returning it and the unconsumed input. -/
def jsonVal (fuel : Nat) (s : List Nat) : Option (Json × List Nat) :=
  match fuel with
  | 0 => none
  | f + 1 =>
      match skipWs s with
      | 110 :: 117 :: 108 :: 108 :: r => some (Json.null, r)
      | 116 :: 114 :: 117 :: 101 :: r => some (Json.bool true, r)
      | 102 :: 97 :: 108 :: 115 :: 101 :: r => some (Json.bool false, r)
      | 34 :: r => (parseStrBody f r).map fun p => (Json.str (String.mk p.1), p.2)
      | 91 :: r =>
          match skipWs r with
          | 93 :: r2 => some (Json.arr [], r2)
          | r2 => (jsonElems f r2).map fun p => (Json.arr p.1, p.2)
      | 123 :: r =>
          match skipWs r with
          | 125 :: r2 => some (Json.obj [], r2)
          | r2 => (jsonMembers f [] r2).map fun p => (Json.obj p.1, p.2)
      | t => (parseIntNum t).map fun p => (Json.num p.1, p.2)

/-- Parse the comma-separated elements of a nonempty JSON array, up to and
including the closing bracket. -/
def jsonElems (fuel : Nat) (s : List Nat) : Option (List Json × List Nat) :=
  match fuel with
  | 0 => none
  | f + 1 =>
      match jsonVal f s with
      | none => none
      | some (v, r) =>
          match skipWs r with
          | 44 :: r2 => (jsonElems f r2).map fun p => (v :: p.1, p.2)
          | 93 :: r2 => some ([v], r2)
          | _ => none

/-- Parse the members of a nonempty JSON object, up to and including the
closing brace, accumulating pairs with Python dict assignment semantics. -/
def jsonMembers (fuel : Nat) (acc : List (String × Json)) (s : List Nat) :
    Option (List (String × Json) × List Nat) :=
  match fuel with
  | 0 => none
  | f + 1 =>
      match skipWs s with
      | 34 :: r =>
          match parseStrBody f r with
          | none => none
          | some (cs, r2) =>
              match skipWs r2 with
              | 58 :: r3 =>
                  match jsonVal f r3 with
                  | none => none
                  | some (v, r4) =>
                      let acc2 := objInsert acc (String.mk cs) v
                      match skipWs r4 with
                      | 44 :: r5 => jsonMembers f acc2 r5
                      | 125 :: r5 => some (acc2, r5)
                      | _ => none
              | _ => none
      | _ => none

end

/-- Python `json.loads` on a byte string (the modelled fragment): one JSON
value followed only by whitespace; `none` models `json.JSONDecodeError`. -/
def jsonParse (s : List Nat) : Option Json :=
  match jsonVal (2 * s.length + 8) s with
  | some (v, r) => if skipWs r = [] then some v else none
  | none => none

/-! The webhook trust boundary of `snippe/webhooks.py` (`WebhookHandler`).
Handler state (`signing_key`, `tolerance`) is passed explicitly, and the
`time.time()` read inside `verify_signature` is the explicit `now`. -/

/-- A failure of the webhook pipeline, one constructor per distinct exception
the source raises: the three `WebhookVerificationError` messages of
`verify_signature` ("Invalid timestamp", "Webhook timestamp expired",
"Invalid signature"), the `json.JSONDecodeError` escaping `json.loads` in
`verify_and_parse`, the `KeyError` escaping `WebhookPayload.from_dict` when a
required key is absent, and the `TypeError` from indexing a non-dict document
with a string key. -/
inductive PipelineError where
  | invalidTimestamp : PipelineError
  | timestampExpired : PipelineError
  | invalidSignature : PipelineError
  | malformedPayload : PipelineError
  | missingKey : String → PipelineError
  | typeError : PipelineError
deriving DecidableEq

/-- Membership in the webhook error taxonomy the spec documents: the three
signature-verification failures plus the payload-decode failure. -/
def isDocumentedWebhookError : PipelineError → Bool
  | .invalidTimestamp => true
  | .timestampExpired => true
  | .invalidSignature => true
  | .malformedPayload => true
  | _ => false

/-- WebhookHandler.compute_signature: the lowercase-hex HMAC-SHA256 of
`timestamp + "." + payload` (46 is the dot) under `signing_key`. -/
def compute_signature (payload timestamp signing_key : List Nat) : List Nat :=
  toHexBytes (hmacSha256 signing_key (timestamp ++ 46 :: payload))

/-- Timestamp half of WebhookHandler.verify_signature (its lines 106-113):
`int(timestamp)` with `ValueError`/`TypeError` becoming "Invalid timestamp",
then `abs(now - ts) > tolerance` becoming "Webhook timestamp expired". -/
def replayGuard (timestamp : List Nat) (tolerance now : Int) :
    Except PipelineError Int :=
  match pyInt timestamp with
  | none => .error .invalidTimestamp
  | some ts =>
      if |now - ts| > tolerance then .error .timestampExpired
      else .ok ts

/-- WebhookHandler.verify_signature: timestamp parse and freshness first, then
computation of the expected signature and the digest comparison
(`hmac.compare_digest`, functionally equality of the two strings), returning
`True` on success. -/
def verify_signature (payload signature timestamp signing_key : List Nat)
    (tolerance now : Int) : Except PipelineError Bool :=
  match replayGuard timestamp tolerance now with
  | .error e => .error e
  | .ok _ =>
      if compute_signature payload timestamp signing_key = signature then .ok true
      else .error .invalidSignature

/-- The canonical webhook event record of `snippe/models.py`
(`WebhookPayload`), each field holding the JSON value the source stores. -/
structure WebhookPayload where
  event : Json
  reference : Json
  status : Json
  amount : Json
  payment_channel : Json
  payment_fee : Json
  customer : Json
  metadata : Json
  completed_at : Json
  created_at : Json
  timestamp : Json

/-- WebhookPayload.from_dict: subscript access `data[k]` for the six required
keys, raising `KeyError(k)` at the first absent one in the source's argument
order, and `data.get` defaults for the rest (`completed_at` defaults to the
absent marker `None`, i.e. `Json.null`). A non-dict document raises
`TypeError`. -/
def WebhookPayload.fromDict (j : Json) : Except PipelineError WebhookPayload :=
  match j with
  | Json.obj kvs =>
      match objGet kvs "event" with
      | none => .error (.missingKey "event")
      | some ev =>
      match objGet kvs "reference" with
      | none => .error (.missingKey "reference")
      | some rf =>
      match objGet kvs "status" with
      | none => .error (.missingKey "status")
      | some st =>
      match objGet kvs "amount" with
      | none => .error (.missingKey "amount")
      | some am =>
      match objGet kvs "created_at" with
      | none => .error (.missingKey "created_at")
      | some ca =>
      match objGet kvs "timestamp" with
      | none => .error (.missingKey "timestamp")
      | some ts =>
          .ok { event := ev
                reference := rf
                status := st
                amount := am
                payment_channel := objGetD kvs "payment_channel" (Json.str "")
                payment_fee := objGetD kvs "payment_fee" (Json.num 0)
                customer := objGetD kvs "customer" (Json.obj [])
                metadata := objGetD kvs "metadata" (Json.obj [])
                completed_at := objGetD kvs "completed_at" Json.null
                created_at := ca
                timestamp := ts }
  | _ => .error .typeError

/-- WebhookHandler.verify_and_parse: `verify_signature`, then `json.loads` on
the body, then `WebhookPayload.from_dict` (the source's `self.parse`). -/
def verify_and_parse (body signature timestamp signing_key : List Nat)
    (tolerance now : Int) : Except PipelineError WebhookPayload :=
  match verify_signature body signature timestamp signing_key tolerance now with
  | .error e => .error e
  | .ok _ =>
      match jsonParse body with
      | none => .error .malformedPayload
      | some j => WebhookPayload.fromDict j

/-! The response classifier of `snippe/client.py` (`Snippe._handle_response`,
identical in `AsyncSnippe`). The body argument is the decoded JSON object
(the `except` branch upstream substitutes `{"message": response.text}` when
decoding fails, again an object). -/

/-- Exception class raised by `_handle_response`, one constructor per class
the source can raise there; `genericError` is the bare `SnippeError` of the
final `else` branch. -/
inductive ErrorKind where
  | authenticationError : ErrorKind
  | validationError : ErrorKind
  | notFoundError : ErrorKind
  | rateLimitError : ErrorKind
  | serverError : ErrorKind
  | genericError : ErrorKind
deriving DecidableEq

/-- The data every `SnippeError` carries: `message`, HTTP `code`, and the
provider `error_code`, plus which class was raised. -/
structure ErrorRecord where
  kind : ErrorKind
  message : Json
  code : Int
  error_code : Json

/-- Snippe._handle_response: 200/201 return `data.get("data", data)`; any
other status extracts `message` (default "Unknown error") and `error_code`
(default "") and raises by the source's status dispatch — 401, 400, 404, 429,
`>= 500`, else the bare `SnippeError`. -/
def handle_response (status : Int) (data : List (String × Json)) :
    Except ErrorRecord Json :=
  if status = 200 ∨ status = 201 then
    .ok (objGetD data "data" (Json.obj data))
  else
    let message := objGetD data "message" (Json.str "Unknown error")
    let error_code := objGetD data "error_code" (Json.str "")
    if status = 401 then
      .error ⟨.authenticationError, message, status, error_code⟩
    else if status = 400 then
      .error ⟨.validationError, message, status, error_code⟩
    else if status = 404 then
      .error ⟨.notFoundError, message, status, error_code⟩
    else if status = 429 then
      .error ⟨.rateLimitError, message, status, error_code⟩
    else if 500 ≤ status then
      .error ⟨.serverError, message, status, error_code⟩
    else
      .error ⟨.genericError, message, status, error_code⟩

/-! The entity normalizers of `snippe/models.py` the money claims concern:
`Payment.from_dict` (flat-or-nested amount) and `Payout.from_dict` (always
nested amount/fees/total). Fields hold the JSON values the source stores; the
`.get` defaults of the source become `objGetD` defaults. -/

/-- The Payment record of `snippe/models.py`. -/
structure Payment where
  reference : Json
  status : Json
  amount : Json
  currency : Json
  payment_type : Json
  expires_at : Json
  payment_url : Json
  qr_code : Json
  payment_qr_code : Json
  payment_token : Json
  id : Json
  psp_reference : Json
  fee_amount : Json
  net_amount : Json
  customer : Json
  metadata : Json
  created_at : Json

/-- Payment.from_dict: `amount_data = data.get("amount")`; when it is a dict,
`value` defaults to 0 and `currency` falls back through the nested field, the
adjacent top-level `currency`, then "TZS"; otherwise the amount is the raw
value (0 when it is `None`, i.e. absent or JSON null) and the currency is the
top-level `currency` defaulting to "TZS". All other fields are plain `.get`
reads with the source's defaults. -/
def Payment.fromDict (data : List (String × Json)) : Payment :=
  let flatCurrency := objGetD data "currency" (Json.str "TZS")
  let pair : Json × Json :=
    match objGet data "amount" with
    | some (Json.obj m) =>
        (objGetD m "value" (Json.num 0), objGetD m "currency" flatCurrency)
    | some Json.null => (Json.num 0, flatCurrency)
    | some v => (v, flatCurrency)
    | none => (Json.num 0, flatCurrency)
  { reference := objGetD data "reference" (Json.str "")
    status := objGetD data "status" (Json.str "pending")
    amount := pair.1
    currency := pair.2
    payment_type := objGetD data "payment_type" (Json.str "")
    expires_at := objGetD data "expires_at" Json.null
    payment_url := objGetD data "payment_url" Json.null
    qr_code := objGetD data "qr_code" Json.null
    payment_qr_code := objGetD data "payment_qr_code" Json.null
    payment_token := objGetD data "payment_token" Json.null
    id := objGetD data "id" Json.null
    psp_reference := objGetD data "psp_reference" Json.null
    fee_amount := objGetD data "fee_amount" Json.null
    net_amount := objGetD data "net_amount" Json.null
    customer := objGetD data "customer" Json.null
    metadata := objGetD data "metadata" Json.null
    created_at := objGetD data "created_at" Json.null }

/-- The nested amount value object of `snippe/models.py` (`PayoutAmount`). -/
structure PayoutAmount where
  value : Json
  currency : Json

/-- The channel value object of `snippe/models.py` (`PayoutChannel`). -/
structure PayoutChannelInfo where
  type : Json
  provider : Json

/-- The recipient value object of `snippe/models.py` (`PayoutRecipient`). -/
structure PayoutRecipientInfo where
  name : Json
  phone : Json
  bank : Json
  account : Json

/-- The Payout record of `snippe/models.py`. -/
structure Payout where
  reference : Json
  status : Json
  amount : PayoutAmount
  fees : PayoutAmount
  total : PayoutAmount
  channel : PayoutChannelInfo
  recipient : PayoutRecipientInfo
  narration : Json
  created_at : Json
  completed_at : Json
  external_reference : Json
  id : Json
  metadata : Json
  source : Json
  failure_reason : Json

/-- Python `data.get(k, {})` followed by dict reads, as done for `amount`,
`fees`, `total`, `channel` and `recipient` in Payout.from_dict. Defined on
documents in which the field, when present, is an object (any other present
shape makes the source's subsequent `.get` raise `AttributeError`). -/
def objGetObjD (data : List (String × Json)) (k : String) :
    List (String × Json) :=
  match objGet data k with
  | some (Json.obj m) => m
  | _ => []

/-- Payout.from_dict: `amount`/`fees`/`total` are read in the nested shape
only, with `value` defaulting to 0 and `currency` to "TZS"; channel and
recipient parts and the remaining fields are `.get` reads with the source's
defaults. -/
def Payout.fromDict (data : List (String × Json)) : Payout :=
  let amount_data := objGetObjD data "amount"
  let fees_data := objGetObjD data "fees"
  let total_data := objGetObjD data "total"
  let channel_data := objGetObjD data "channel"
  let recipient_data := objGetObjD data "recipient"
  { reference := objGetD data "reference" (Json.str "")
    status := objGetD data "status" (Json.str "pending")
    amount := ⟨objGetD amount_data "value" (Json.num 0),
               objGetD amount_data "currency" (Json.str "TZS")⟩
    fees := ⟨objGetD fees_data "value" (Json.num 0),
             objGetD fees_data "currency" (Json.str "TZS")⟩
    total := ⟨objGetD total_data "value" (Json.num 0),
              objGetD total_data "currency" (Json.str "TZS")⟩
    channel := ⟨objGetD channel_data "type" (Json.str ""),
                objGetD channel_data "provider" (Json.str "")⟩
    recipient := ⟨objGetD recipient_data "name" (Json.str ""),
                  objGetD recipient_data "phone" Json.null,
                  objGetD recipient_data "bank" Json.null,
                  objGetD recipient_data "account" Json.null⟩
    narration := objGetD data "narration" Json.null
    created_at := objGetD data "created_at" Json.null
    completed_at := objGetD data "completed_at" Json.null
    external_reference := objGetD data "external_reference" Json.null
    id := objGetD data "id" Json.null
    metadata := objGetD data "metadata" Json.null
    source := objGetD data "source" Json.null
    failure_reason := objGetD data "failure_reason" Json.null }

/-! Claim theorems. -/

/-- Claim C1: the spec's status table maps 403, 409 and 422 to
ForbiddenError, ConflictError and UnprocessableEntityError, and those classes
exist in `snippe/exceptions.py` documented with exactly those statuses — but
`_handle_response` has no branches for them, so all three fall through to the
bare `SnippeError` (the generic kind). The 401 row of the table does hold,
with the carried message, http code and provider error code. -/
theorem handle_response_unmapped_statuses :
    handle_response 403 [("message", Json.str "no")] =
      .error ⟨.genericError, Json.str "no", 403, Json.str ""⟩
    ∧ handle_response 409 [("message", Json.str "no")] =
      .error ⟨.genericError, Json.str "no", 409, Json.str ""⟩
    ∧ handle_response 422 [("message", Json.str "no")] =
      .error ⟨.genericError, Json.str "no", 422, Json.str ""⟩
    ∧ handle_response 401
        [("message", Json.str "bad key"), ("error_code", Json.str "AUTH_001")] =
      .error ⟨.authenticationError, Json.str "bad key", 401, Json.str "AUTH_001"⟩
    ∧ handle_response 503 [] =
      .error ⟨.serverError, Json.str "Unknown error", 503, Json.str ""⟩
    ∧ handle_response 418 [] =
      .error ⟨.genericError, Json.str "Unknown error", 418, Json.str ""⟩ :=
  ⟨rfl, rfl, rfl, rfl, rfl, rfl⟩

/-- Claim C8: on status 200 or 201 the classifier returns the body's `data`
field when present (even a null one, per `dict.get` semantics) and the whole
body otherwise, and the spec's concrete example unwraps as stated. -/
theorem handle_response_success_unwrap :
    (∀ (s : Int) (kvs : List (String × Json)), s = 200 ∨ s = 201 →
      (∀ v, objGet kvs "data" = some v → handle_response s kvs = .ok v)
      ∧ (objGet kvs "data" = none → handle_response s kvs = .ok (Json.obj kvs)))
    ∧ handle_response 200 [("data", Json.obj [("reference", Json.str "r1")])] =
        .ok (Json.obj [("reference", Json.str "r1")]) := by
  refine ⟨?_, rfl⟩
  intro s kvs hs
  constructor
  · intro v hv
    unfold handle_response
    rw [if_pos hs]
    unfold objGetD
    rw [hv]
  · intro hv
    unfold handle_response
    rw [if_pos hs]
    unfold objGetD
    rw [hv]

/-- Witness for C8 at a concrete wrapped response. -/
theorem handle_response_success_unwrap_witness :
    ((200 : Int) = 200 ∨ (200 : Int) = 201)
    ∧ objGet [("data", Json.num 7)] "data" = some (Json.num 7)
    ∧ handle_response 200 [("data", Json.num 7)] = .ok (Json.num 7) :=
  ⟨Or.inl rfl, rfl,
    (handle_response_success_unwrap.1 200 [("data", Json.num 7)]
      (Or.inl rfl)).1 (Json.num 7) rfl⟩

/-- Claim C3 counterexample: at the spec's example (now 1700000300, tolerance
300, timestamp "1700000000") the distance is exactly 300, which the source's
strict `>` comparison accepts — the replay guard succeeds rather than failing
with TimestampExpired as the claim asserts. -/
theorem replayGuard_spec_example_succeeds :
    replayGuard (strBytes "1700000000") 300 1700000300 = .ok 1700000000
    ∧ replayGuard (strBytes "1700000000") 300 1700000300 ≠
        .error .timestampExpired :=
  ⟨rfl, fun h => nomatch h⟩

/-- Claim C3 (amended): for a timestamp string parsing to `ts` and tolerance
`tol ≥ 0`, the replay guard succeeds exactly when `|now - ts| ≤ tol` and
fails with TimestampExpired exactly when `|now - ts| > tol`, symmetrically in
both directions; both distance-300 boundaries succeed and both distance-301
boundaries fail — so the spec's example at distance exactly 300 succeeds. -/
theorem replayGuard_freshness_window :
    (∀ (s : List Nat) (ts tol now : Int), pyInt s = some ts → 0 ≤ tol →
      ((replayGuard s tol now = .ok ts ↔ |now - ts| ≤ tol)
        ∧ (replayGuard s tol now = .error .timestampExpired ↔ tol < |now - ts|)))
    ∧ replayGuard (strBytes "1700000300") 300 1700000000 = .ok 1700000300
    ∧ replayGuard (strBytes "1700000301") 300 1700000000 =
        .error .timestampExpired
    ∧ replayGuard (strBytes "1700000000") 300 1700000301 =
        .error .timestampExpired := by
  refine ⟨?_, rfl, rfl, rfl⟩
  intro s ts tol now hp _
  have hr : replayGuard s tol now =
      if |now - ts| > tol then .error .timestampExpired else .ok ts := by
    unfold replayGuard
    rw [hp]
  rw [hr]
  by_cases h : |now - ts| > tol
  · rw [if_pos h]
    refine ⟨⟨fun hc => (nomatch hc), fun hle => absurd h (not_lt.mpr hle)⟩,
      ⟨fun _ => h, fun _ => rfl⟩⟩
  · rw [if_neg h]
    exact ⟨⟨fun _ => not_lt.mp h, fun _ => rfl⟩,
      ⟨fun hc => (nomatch hc), fun hlt => absurd hlt h⟩⟩

/-- Witness for C3 at a concrete fresh timestamp. -/
theorem replayGuard_freshness_window_witness :
    pyInt (strBytes "100") = some 100 ∧ (0 : Int) ≤ 300
    ∧ ((replayGuard (strBytes "100") 300 150 = .ok 100 ↔
          |(150 : Int) - 100| ≤ 300)
        ∧ (replayGuard (strBytes "100") 300 150 = .error .timestampExpired ↔
          (300 : Int) < |(150 : Int) - 100|)) :=
  ⟨rfl, by decide,
    replayGuard_freshness_window.1 (strBytes "100") 100 300 150 rfl (by decide)⟩

/-- Claim C5 counterexample: the round-trip does not succeed for every
timestamp string — with the unparsable header "x", verifying the very
signature `compute_signature` produced fails with "Invalid timestamp",
because `verify_signature` runs the replay guard first. -/
theorem verify_roundtrip_fails_unparsable_timestamp :
    verify_signature [] (compute_signature [] (strBytes "x") [])
      (strBytes "x") [] 300 0 = .error .invalidTimestamp := rfl

/-- Claim C5 (amended): the compute/verify round-trip holds for every body,
timestamp string and key, provided the timestamp parses as an integer within
tolerance of the clock value — the two conditions `verify_signature` checks
before comparing digests. -/
theorem verify_roundtrip_fresh :
    ∀ (body key ts : List Nat) (tol now n : Int), pyInt ts = some n →
      |now - n| ≤ tol →
      verify_signature body (compute_signature body ts key) ts key tol now =
        .ok true := by
  intro body key ts tol now n hp hle
  have hr : replayGuard ts tol now = .ok n := by
    unfold replayGuard
    rw [hp]
    show (if |now - n| > tol then (Except.error PipelineError.timestampExpired :
      Except PipelineError Int) else .ok n) = .ok n
    exact if_neg (not_lt.mpr hle)
  unfold verify_signature
  rw [hr]
  exact if_pos rfl

/-- Witness for C5 at a concrete fresh round-trip. -/
theorem verify_roundtrip_fresh_witness :
    pyInt (strBytes "0") = some 0 ∧ |(0 : Int) - 0| ≤ 300
    ∧ verify_signature [] (compute_signature [] (strBytes "0") [])
        (strBytes "0") [] 300 0 = .ok true :=
  ⟨rfl, by decide,
    verify_roundtrip_fresh [] [] (strBytes "0") 300 0 0 rfl (by decide)⟩

/-- Claim C7: with every argument the Python caller can pass to
`verify_signature` held fixed (body, signature, timestamp, key, tolerance),
the result still flips from success to TimestampExpired as the value
`time.time()` returns moves from 100 to 1000 — the clock read is an implicit
input of the source, not an injectable parameter. -/
theorem verify_signature_depends_on_clock :
    verify_signature [] (compute_signature [] (strBytes "100") [])
      (strBytes "100") [] 300 100 = .ok true
    ∧ verify_signature [] (compute_signature [] (strBytes "100") [])
      (strBytes "100") [] 300 1000 = .error .timestampExpired := by
  constructor
  · have hr : replayGuard (strBytes "100") 300 100 = .ok 100 := rfl
    unfold verify_signature
    rw [hr]
    exact if_pos rfl
  · rfl

/-- Helper: every error of `verify_signature` is one of the three
verification-failure kinds it can raise. -/
theorem verify_signature_error_cases :
    ∀ (body sig ts key : List Nat) (tol now : Int) (e : PipelineError),
      verify_signature body sig ts key tol now = .error e →
      e = .invalidTimestamp ∨ e = .timestampExpired ∨ e = .invalidSignature := by
  intro body sig ts key tol now e he
  unfold verify_signature at he
  cases hr : replayGuard ts tol now with
  | error e0 =>
      simp only [hr] at he
      injection he with h
      subst h
      unfold replayGuard at hr
      cases hp : pyInt ts with
      | none =>
          simp only [hp] at hr
          injection hr with h1
          exact Or.inl h1.symm
      | some n =>
          simp only [hp] at hr
          by_cases hb : |now - n| > tol
          · rw [if_pos hb] at hr
            injection hr with h1
            exact Or.inr (Or.inl h1.symm)
          · rw [if_neg hb] at hr
            exact Except.noConfusion hr
  | ok b =>
      simp only [hr] at he
      by_cases hc : compute_signature body ts key = sig
      · rw [if_pos hc] at he
        exact Except.noConfusion he
      · rw [if_neg hc] at he
        injection he with h
        exact Or.inr (Or.inr h.symm)

/-- Helper: every error of `WebhookPayload.fromDict` is a missing required
key or the non-dict type error. -/
theorem fromDict_error_cases :
    ∀ (j : Json) (e : PipelineError), WebhookPayload.fromDict j = .error e →
      (∃ k, e = .missingKey k) ∨ e = .typeError := by
  intro j e he
  cases j with
  | obj kvs =>
      unfold WebhookPayload.fromDict at he
      cases h1 : objGet kvs "event" with
      | none =>
          simp only [h1] at he
          injection he with h
          exact Or.inl ⟨"event", h.symm⟩
      | some ev =>
      cases h2 : objGet kvs "reference" with
      | none =>
          simp only [h1, h2] at he
          injection he with h
          exact Or.inl ⟨"reference", h.symm⟩
      | some rf =>
      cases h3 : objGet kvs "status" with
      | none =>
          simp only [h1, h2, h3] at he
          injection he with h
          exact Or.inl ⟨"status", h.symm⟩
      | some st =>
      cases h4 : objGet kvs "amount" with
      | none =>
          simp only [h1, h2, h3, h4] at he
          injection he with h
          exact Or.inl ⟨"amount", h.symm⟩
      | some am =>
      cases h5 : objGet kvs "created_at" with
      | none =>
          simp only [h1, h2, h3, h4, h5] at he
          injection he with h
          exact Or.inl ⟨"created_at", h.symm⟩
      | some ca =>
      cases h6 : objGet kvs "timestamp" with
      | none =>
          simp only [h1, h2, h3, h4, h5, h6] at he
          injection he with h
          exact Or.inl ⟨"timestamp", h.symm⟩
      | some ts =>
          simp only [h1, h2, h3, h4, h5, h6] at he
          exact Except.noConfusion he
  | null => exact Or.inr (by injection he with h; exact h.symm)
  | bool b => exact Or.inr (by injection he with h; exact h.symm)
  | num n => exact Or.inr (by injection he with h; exact h.symm)
  | str s => exact Or.inr (by injection he with h; exact h.symm)
  | arr xs => exact Or.inr (by injection he with h; exact h.symm)

/-- Claim C2: the pipeline is ordered — a parsable but out-of-window
timestamp makes the whole pipeline fail with TimestampExpired for every
supplied signature, including the correct one; and whenever
`verify_signature` fails, `verify_and_parse` returns exactly that failure, so
the body is never JSON-parsed unless verification succeeded. -/
theorem verify_and_parse_stage_order :
    ∀ (body sig ts key : List Nat) (tol now : Int),
      (∀ n, pyInt ts = some n → tol < |now - n| →
        verify_and_parse body sig ts key tol now = .error .timestampExpired)
      ∧ (∀ e, verify_signature body sig ts key tol now = .error e →
        verify_and_parse body sig ts key tol now = .error e) := by
  intro body sig ts key tol now
  constructor
  · intro n hn hlt
    have hr : replayGuard ts tol now = .error .timestampExpired := by
      unfold replayGuard
      rw [hn]
      show (if |now - n| > tol then (Except.error PipelineError.timestampExpired :
        Except PipelineError Int) else .ok n) = .error .timestampExpired
      exact if_pos hlt
    have hv : verify_signature body sig ts key tol now =
        .error .timestampExpired := by
      unfold verify_signature
      rw [hr]
    unfold verify_and_parse
    rw [hv]
  · intro e he
    unfold verify_and_parse
    rw [he]

/-- Witness for C2: an expired timestamp with the correct signature is
reported as TimestampExpired. -/
theorem verify_and_parse_stage_order_witness :
    pyInt (strBytes "0") = some 0 ∧ (300 : Int) < |(1000 : Int) - 0|
    ∧ verify_and_parse [] (compute_signature [] (strBytes "0") [])
        (strBytes "0") [] 300 1000 = .error .timestampExpired :=
  ⟨rfl, by decide,
    (verify_and_parse_stage_order [] (compute_signature [] (strBytes "0") [])
      (strBytes "0") [] 300 1000).1 0 rfl (by decide)⟩

/-- Claim C4 counterexample: after a fresh timestamp, a valid signature and
well-formed JSON, a body missing the required `event` key fails with the
KeyError kind — a fifth failure outside the four documented webhook error
kinds. -/
theorem verify_and_parse_missing_key_fifth_kind :
    verify_and_parse (strBytes "\x7b\x7d")
      (compute_signature (strBytes "\x7b\x7d") (strBytes "100") (strBytes "k"))
      (strBytes "100") (strBytes "k") 300 100 = .error (.missingKey "event")
    ∧ isDocumentedWebhookError (.missingKey "event") = false := by
  constructor
  · have hv : verify_signature (strBytes "\x7b\x7d")
        (compute_signature (strBytes "\x7b\x7d") (strBytes "100") (strBytes "k"))
        (strBytes "100") (strBytes "k") 300 100 = .ok true := by
      have hr : replayGuard (strBytes "100") 300 100 = .ok 100 := rfl
      unfold verify_signature
      rw [hr]
      exact if_pos rfl
    unfold verify_and_parse
    rw [hv]
    rfl
  · rfl

/-- Claim C4 (amended): verification failures are among the three
verification kinds; every pipeline failure is one of those three, the
decode failure, a missing required key, or the non-dict type error — one
error value per failure and no partial result; and a JSON decode failure
after successful verification is exactly MalformedPayload, distinct from the
verification kinds. -/
theorem verify_and_parse_failure_taxonomy :
    ∀ (body sig ts key : List Nat) (tol now : Int),
      (∀ e, verify_signature body sig ts key tol now = .error e →
        e = .invalidTimestamp ∨ e = .timestampExpired ∨ e = .invalidSignature)
      ∧ (∀ e, verify_and_parse body sig ts key tol now = .error e →
        e = .invalidTimestamp ∨ e = .timestampExpired ∨ e = .invalidSignature
          ∨ e = .malformedPayload ∨ (∃ k, e = .missingKey k) ∨ e = .typeError)
      ∧ (verify_signature body sig ts key tol now = .ok true →
          jsonParse body = none →
          verify_and_parse body sig ts key tol now = .error .malformedPayload) := by
  intro body sig ts key tol now
  refine ⟨fun e he => verify_signature_error_cases body sig ts key tol now e he,
    ?_, ?_⟩
  · intro e he
    unfold verify_and_parse at he
    cases hv : verify_signature body sig ts key tol now with
    | error e1 =>
        simp only [hv] at he
        injection he with h
        rw [h] at hv
        rcases verify_signature_error_cases body sig ts key tol now e hv with
          h1 | h1 | h1
        · exact Or.inl h1
        · exact Or.inr (Or.inl h1)
        · exact Or.inr (Or.inr (Or.inl h1))
    | ok b =>
        simp only [hv] at he
        cases hj : jsonParse body with
        | none =>
            simp only [hj] at he
            injection he with h
            exact Or.inr (Or.inr (Or.inr (Or.inl h.symm)))
        | some j =>
            simp only [hj] at he
            rcases fromDict_error_cases j e he with ⟨k, hk⟩ | hk
            · exact Or.inr (Or.inr (Or.inr (Or.inr (Or.inl ⟨k, hk⟩))))
            · exact Or.inr (Or.inr (Or.inr (Or.inr (Or.inr hk))))
  · intro hv hj
    unfold verify_and_parse
    simp only [hv, hj]

/-- Witness for C4: a verified but malformed body yields MalformedPayload. -/
theorem verify_and_parse_failure_taxonomy_witness :
    verify_signature (strBytes "\x7b")
      (compute_signature (strBytes "\x7b") (strBytes "100") (strBytes "k"))
      (strBytes "100") (strBytes "k") 300 100 = .ok true
    ∧ jsonParse (strBytes "\x7b") = none
    ∧ verify_and_parse (strBytes "\x7b")
      (compute_signature (strBytes "\x7b") (strBytes "100") (strBytes "k"))
      (strBytes "100") (strBytes "k") 300 100 = .error .malformedPayload := by
  have hv : verify_signature (strBytes "\x7b")
      (compute_signature (strBytes "\x7b") (strBytes "100") (strBytes "k"))
      (strBytes "100") (strBytes "k") 300 100 = .ok true := by
    have hr : replayGuard (strBytes "100") 300 100 = .ok 100 := rfl
    unfold verify_signature
    rw [hr]
    exact if_pos rfl
  exact ⟨hv, rfl,
    (verify_and_parse_failure_taxonomy (strBytes "\x7b")
      (compute_signature (strBytes "\x7b") (strBytes "100") (strBytes "k"))
      (strBytes "100") (strBytes "k") 300 100).2.2 hv rfl⟩

/-- Claim C10: the six keys `event`, `reference`, `status`, `amount`,
`created_at` and `timestamp` are required by payload parsing — if any is
absent the parse fails with a missing-key error (a KeyError, outside the four
documented webhook kinds); when all six are present the remaining fields
default to "" / 0 / empty object / empty object / the absent marker; and the
missing-key failure also escapes `verify_and_parse` after a valid, fresh
signature and well-formed JSON. -/
theorem webhook_payload_required_keys :
    ∀ (kvs : List (String × Json)),
      ((objGet kvs "event" = none ∨ objGet kvs "reference" = none
          ∨ objGet kvs "status" = none ∨ objGet kvs "amount" = none
          ∨ objGet kvs "created_at" = none ∨ objGet kvs "timestamp" = none) →
        ∃ k, WebhookPayload.fromDict (Json.obj kvs) = .error (.missingKey k)
          ∧ objGet kvs k = none
          ∧ isDocumentedWebhookError (.missingKey k) = false)
      ∧ (∀ ev rf st am ca ts, objGet kvs "event" = some ev →
          objGet kvs "reference" = some rf → objGet kvs "status" = some st →
          objGet kvs "amount" = some am → objGet kvs "created_at" = some ca →
          objGet kvs "timestamp" = some ts →
          objGet kvs "payment_channel" = none →
          objGet kvs "payment_fee" = none → objGet kvs "customer" = none →
          objGet kvs "metadata" = none → objGet kvs "completed_at" = none →
          WebhookPayload.fromDict (Json.obj kvs) =
            .ok ⟨ev, rf, st, am, Json.str "", Json.num 0, Json.obj [],
              Json.obj [], Json.null, ca, ts⟩)
      ∧ (∀ (body sig ts2 key : List Nat) (tol now : Int),
          verify_signature body sig ts2 key tol now = .ok true →
          jsonParse body = some (Json.obj kvs) → objGet kvs "event" = none →
          verify_and_parse body sig ts2 key tol now =
            .error (.missingKey "event")) := by
  intro kvs
  refine ⟨?_, ?_, ?_⟩
  · intro hreq
    cases h1 : objGet kvs "event" with
    | none =>
        exact ⟨"event", by unfold WebhookPayload.fromDict; simp only [h1],
          h1, rfl⟩
    | some ev =>
    cases h2 : objGet kvs "reference" with
    | none =>
        exact ⟨"reference",
          by unfold WebhookPayload.fromDict; simp only [h1, h2], h2, rfl⟩
    | some rf =>
    cases h3 : objGet kvs "status" with
    | none =>
        exact ⟨"status",
          by unfold WebhookPayload.fromDict; simp only [h1, h2, h3], h3, rfl⟩
    | some st =>
    cases h4 : objGet kvs "amount" with
    | none =>
        exact ⟨"amount",
          by unfold WebhookPayload.fromDict; simp only [h1, h2, h3, h4],
          h4, rfl⟩
    | some am =>
    cases h5 : objGet kvs "created_at" with
    | none =>
        exact ⟨"created_at",
          by unfold WebhookPayload.fromDict; simp only [h1, h2, h3, h4, h5],
          h5, rfl⟩
    | some ca =>
    cases h6 : objGet kvs "timestamp" with
    | none =>
        exact ⟨"timestamp",
          by unfold WebhookPayload.fromDict;
             simp only [h1, h2, h3, h4, h5, h6],
          h6, rfl⟩
    | some ts =>
        rcases hreq with h | h | h | h | h | h <;> simp_all
  · intro ev rf st am ca ts h1 h2 h3 h4 h5 h6 p1 p2 p3 p4 p5
    unfold WebhookPayload.fromDict
    simp only [h1, h2, h3, h4, h5, h6]
    unfold objGetD
    simp only [p1, p2, p3, p4, p5]
  · intro body sig ts2 key tol now hv hj he
    unfold verify_and_parse
    simp only [hv, hj]
    unfold WebhookPayload.fromDict
    simp only [he]

/-- Witness for C10 at the empty document. -/
theorem webhook_payload_required_keys_witness :
    (objGet ([] : List (String × Json)) "event" = none
        ∨ objGet ([] : List (String × Json)) "reference" = none
        ∨ objGet ([] : List (String × Json)) "status" = none
        ∨ objGet ([] : List (String × Json)) "amount" = none
        ∨ objGet ([] : List (String × Json)) "created_at" = none
        ∨ objGet ([] : List (String × Json)) "timestamp" = none)
    ∧ ∃ k, WebhookPayload.fromDict (Json.obj []) = .error (.missingKey k)
        ∧ objGet ([] : List (String × Json)) k = none
        ∧ isDocumentedWebhookError (.missingKey k) = false :=
  ⟨Or.inl rfl, (webhook_payload_required_keys []).1 (Or.inl rfl)⟩

/-- Claim C6: the flat shape `{"amount": v, "currency": c}` and the nested
shape `{"amount": {"value": v, "currency": c}}` normalize to the same
amount/currency pair; a nested object missing `value` or `currency` defaults
to 0 and the fallback currency (the adjacent top-level `currency` when
present, else "TZS"); a flat amount takes the adjacent top-level currency
when present, else "TZS"; and the payout normalizer reads the nested shape
with the same defaults. -/
theorem money_normalizer_shapes :
    ∀ (v : Int) (c : String),
      ((Payment.fromDict [("amount", Json.num v), ("currency", Json.str c)]).amount =
          (Payment.fromDict
            [("amount", Json.obj [("value", Json.num v),
              ("currency", Json.str c)])]).amount
        ∧ (Payment.fromDict
            [("amount", Json.num v), ("currency", Json.str c)]).currency =
          (Payment.fromDict
            [("amount", Json.obj [("value", Json.num v),
              ("currency", Json.str c)])]).currency)
      ∧ (Payment.fromDict
          [("amount", Json.num v), ("currency", Json.str c)]).amount = Json.num v
      ∧ (Payment.fromDict
          [("amount", Json.num v), ("currency", Json.str c)]).currency =
            Json.str c
      ∧ (Payment.fromDict
          [("amount", Json.obj [("currency", Json.str c)])]).amount = Json.num 0
      ∧ (Payment.fromDict
          [("amount", Json.obj [("value", Json.num v)]),
            ("currency", Json.str c)]).currency = Json.str c
      ∧ (Payment.fromDict
          [("amount", Json.obj [("value", Json.num v)])]).currency =
            Json.str "TZS"
      ∧ (Payment.fromDict [("amount", Json.num v)]).currency = Json.str "TZS"
      ∧ (Payout.fromDict
          [("amount", Json.obj [("value", Json.num v),
            ("currency", Json.str c)])]).amount = ⟨Json.num v, Json.str c⟩
      ∧ (Payout.fromDict ([] : List (String × Json))).amount =
          ⟨Json.num 0, Json.str "TZS"⟩ :=
  fun v c => ⟨⟨rfl, rfl⟩, rfl, rfl, rfl, rfl, rfl, rfl, rfl, rfl⟩
